import Mathlib

/-!
Shallow embedding of the rotating namespaced logger implemented in
src/logger.ts (class Logger). Pure string helpers are translated as Lean
functions; the stateful logger (open files, rotation marker, on-disk file
contents, console output) is translated as explicit state passing over a
LoggerState record. The current wall-clock instant (a JavaScript Date) is
passed explicitly to each operation; the success of the external gzip
call is an explicit boolean oracle.
-/

namespace LoggerTS

/-- ECMAScript GetSubstitution for a string replacement against a regular
expression with no capture groups: inside the replacement text, a dollar
pair is rewritten — two dollars give a literal dollar, dollar-ampersand
gives the matched substring m, dollar-backquote gives the portion b of
the subject before the match, dollar-quote gives the portion a of the
subject after the match — while every other character (including a
dollar followed by anything else, such as a digit, since there are no
capture groups, or a trailing lone dollar) is copied literally. -/
def getSubstitution (m b a : List Char) : List Char → List Char
  | [] => []
  | c :: rest =>
    if c = '$' then
      match rest with
      | [] => ['$']
      | d :: rest' =>
        if d = '$' then '$' :: getSubstitution m b a rest'
        else if d = '&' then m ++ getSubstitution m b a rest'
        else if d = '\x60' then b ++ getSubstitution m b a rest'
        else if d = '\x27' then a ++ getSubstitution m b a rest'
        else '$' :: getSubstitution m b a (d :: rest')
    else c :: getSubstitution m b a rest

/-- One pass of JavaScript String.replace with a global literal pattern:
the scan runs left to right over the subject only, replaces
non-overlapping occurrences, and never rescans inserted text. Each
inserted replacement is the GetSubstitution expansion of rep against the
match: the matched substring is the literal pattern, and the before/after
portions are taken from the original subject S at the match position. S
is the whole original subject, pos the position of the head of the walked
list within S, and the final Nat counts pattern characters still to be
skipped after a match was emitted. -/
def replaceGo (pat rep S : List Char) : List Char → Nat → Nat → List Char
  | [], _, _ => []
  | _ :: cs, pos, k + 1 => replaceGo pat rep S cs (pos + 1) k
  | c :: cs, pos, 0 =>
    if pat.isPrefixOf (c :: cs) then
      getSubstitution pat (S.take pos) (S.drop (pos + pat.length)) rep
        ++ replaceGo pat rep S cs (pos + 1) (pat.length - 1)
    else c :: replaceGo pat rep S cs (pos + 1) 0

/-- JavaScript s.replace(/pat/g, rep) for a literal pattern with no
capture groups, dollar substitution included. -/
def replaceStr (s pat rep : String) : String :=
  ⟨replaceGo pat.data rep.data s.data s.data 0 0⟩

/-- The LogType enum of logger.ts; a TypeScript numeric enum whose members
carry the values INFO=0, WARN=1, DEBUG=2, ERROR=3. -/
inductive LogType
  | INFO
  | WARN
  | DEBUG
  | ERROR
deriving DecidableEq, Repr

/-- JavaScript type.toString() on the numeric enum: the decimal rendering
of the member value 0..3 (not the member name). -/
def LogType.toString : LogType → String
  | .INFO => "0"
  | .WARN => "1"
  | .DEBUG => "2"
  | .ERROR => "3"

/-- The LoggerSettings interface: both fields optional (undefined when
absent). -/
structure LoggerSettings where
  consoleLog : Option Bool
  includeObjects : Option Bool
deriving DecidableEq, Repr

/-- JavaScript truthiness of an optional boolean: undefined is falsy. -/
def truthy : Option Bool → Bool
  | some b => b
  | none => false

/-- The LogFile interface: directory path, file name, and the write
stream, modelled by the numeric id of the stream. -/
structure LogFile where
  filePath : String
  fileName : String
  streamId : Nat
deriving DecidableEq, Repr

/-- The components of a JavaScript Date that logger.ts reads: getFullYear,
getMonth (0-based), getDate (day of month), getDay (day of week 0-6),
getHours, getMinutes, and toISOString. -/
structure JsDate where
  fullYear : Nat
  month : Nat
  date : Nat
  day : Nat
  hours : Nat
  minutes : Nat
  iso : String
deriving DecidableEq, Repr

/-- parseMonth of logger.ts: a switch sending 2 to February, 3 to March,
..., 12 to December, and every other number (including 0 and 1) to
January. -/
def parseMonth : Nat → String
  | 2 => "February"
  | 3 => "March"
  | 4 => "April"
  | 5 => "May"
  | 6 => "June"
  | 7 => "July"
  | 8 => "August"
  | 9 => "September"
  | 10 => "October"
  | 11 => "November"
  | 12 => "December"
  | _ => "January"

/-- beautifyNumber of logger.ts: ('0' + number).slice(-2), the last two
characters of the decimal rendering prefixed with a zero. -/
def beautifyNumber (n : Nat) : String :=
  let s := "0" ++ toString n
  ⟨s.data.drop (s.data.length - 2)⟩

/-- Node path.join on clean segments: interpose the separator. -/
def pathJoin (parts : List String) : String :=
  String.intercalate "/" parts

/-- The full on-disk path of a LogFile, path.join(filePath, fileName). -/
def fullPath (f : LogFile) : String :=
  pathJoin [f.filePath, f.fileName]

/-- The Map from LogType to LogFile, as one optional slot per severity. -/
structure LogFiles where
  info : Option LogFile
  warn : Option LogFile
  debug : Option LogFile
  error : Option LogFile
deriving DecidableEq, Repr

def LogFiles.get (m : LogFiles) : LogType → Option LogFile
  | .INFO => m.info
  | .WARN => m.warn
  | .DEBUG => m.debug
  | .ERROR => m.error

def LogFiles.set (m : LogFiles) : LogType → Option LogFile → LogFiles
  | .INFO, v => { m with info := v }
  | .WARN, v => { m with warn := v }
  | .DEBUG, v => { m with debug := v }
  | .ERROR, v => { m with error := v }

/-- A console call: the console function used (info, warn, debug, error),
the rendered line, and the optional second argument (the attached object,
or the error value reported on compression failure). -/
abbrev ConsoleEvent := String × String × Option String

/-- The logger instance together with the world it acts on: its
configuration fields, the rotation marker currentDay, the logFiles map,
the on-disk file contents (an association list from full path to content,
most recent entry first), the write streams ever opened and never closed,
a counter for fresh stream ids, and the console output so far. Attached
objects are modelled by their JSON.stringify rendering. -/
structure LoggerState where
  nspace : String
  logsPath : String
  template : String
  settings : LoggerSettings
  currentDay : Nat
  logFiles : LogFiles
  files : List (String × String)
  openStreams : List (Nat × String)
  nextStreamId : Nat
  consoleOut : List ConsoleEvent
deriving DecidableEq, Repr

/-- Record a new or truncated file: the association list is extended in
front, shadowing any earlier entry for the same path. -/
def setFile (files : List (String × String)) (p v : String) :
    List (String × String) :=
  (p, v) :: files

/-- Look up the current content of the file at a path. -/
def getFile (files : List (String × String)) (p : String) : Option String :=
  files.lookup p

/-- writeStream.write(s): append s to the file the stream points at. -/
def streamWrite (st : LoggerState) (f : LogFile) (s : String) : LoggerState :=
  { st with files :=
      setFile st.files (fullPath f) (((getFile st.files (fullPath f)).getD "") ++ s) }

/-- fs.createWriteStream(path.join(dir, name), \x7b flags: "w" \x7d)
followed by this.logFiles.set(ty, ...): truncate or create the file,
open a fresh stream on it, and store the LogFile in the map. -/
def openLog (st : LoggerState) (ty : LogType) (dir name : String) :
    LoggerState :=
  { st with
    files := setFile st.files (pathJoin [dir, name]) "",
    openStreams := (st.nextStreamId, pathJoin [dir, name]) :: st.openStreams,
    nextStreamId := st.nextStreamId + 1,
    logFiles := st.logFiles.set ty (some ⟨dir, name, st.nextStreamId⟩) }

/-- The logDir local of loadFiles: path.join(year, parseMonth(month)). -/
def logDirOf (d : JsDate) : String :=
  pathJoin [toString d.fullYear, parseMonth d.month]

/-- The logName local of loadFiles:
beautifyNumber(getDay()) + "-" + beautifyNumber(getHours()) + "_" +
beautifyNumber(getMinutes()) + ".log". Note getDay is the day of the
week. -/
def logNameOf (d : JsDate) : String :=
  beautifyNumber d.day ++ "-" ++ beautifyNumber d.hours ++ "_" ++
    beautifyNumber d.minutes ++ ".log"

/-- Logger.loadFiles: set the rotation marker to getDay(), then for each
severity in the order INFO, WARN, DEBUG, ERROR create the severity
directory and open the log file under it in truncating "w" mode. -/
def loadFiles (st : LoggerState) (date : JsDate) : LoggerState :=
  let st := { st with currentDay := date.day }
  let logDir := logDirOf date
  let logName := logNameOf date
  let st := openLog st .INFO (pathJoin [st.logsPath, "info", logDir]) logName
  let st := openLog st .WARN (pathJoin [st.logsPath, "warn", logDir]) logName
  let st := openLog st .DEBUG (pathJoin [st.logsPath, "debug", logDir]) logName
  let st := openLog st .ERROR (pathJoin [st.logsPath, "error", logDir]) logName
  st

/-- Logger.compressFile: if the map holds a file for the severity, call
the external gzip (its success given by the oracle ok). On success a .gz
sibling appears and nothing else happens (the unlink of the original is
commented out in the source, so the original is never deleted and the
stream is not closed). On failure console.error is called with a message
naming the offending path and the error value. -/
def compressFile (st : LoggerState) (ty : LogType) (ok : Bool) : LoggerState :=
  match st.logFiles.get ty with
  | none => st
  | some file =>
    if ok then
      { st with files :=
          (setFile st.files (fullPath file ++ ".gz")
            ("gz:" ++ ((getFile st.files (fullPath file)).getD ""))) }
    else
      { st with consoleOut :=
          st.consoleOut ++
            [("error",
              "Couldn\x27t compress file " ++ file.filePath ++ "/" ++ file.fileName,
              some "error")] }

/-- Logger.compressFiles: compress the four severities in the fixed order
INFO, WARN, DEBUG, ERROR. -/
def compressFiles (st : LoggerState) (ok : LogType → Bool) : LoggerState :=
  let st := compressFile st .INFO (ok .INFO)
  let st := compressFile st .WARN (ok .WARN)
  let st := compressFile st .DEBUG (ok .DEBUG)
  let st := compressFile st .ERROR (ok .ERROR)
  st

/-- Logger.reloadFiles: if getDay() of the present instant differs from
the rotation marker, compress the current generation and load a fresh
one. -/
def reloadFiles (st : LoggerState) (now : JsDate) (ok : LogType → Bool) :
    LoggerState :=
  if now.day ≠ st.currentDay then loadFiles (compressFiles st ok) now else st

/-- Logger.logToConsole: call the given console function with the rendered
line, adding the object as a second argument when includeObjects is truthy
and an object was supplied. -/
def logToConsole (st : LoggerState) (func : String) (templated : String)
    (object : Option String) : LoggerState :=
  if truthy st.settings.includeObjects && object.isSome then
    { st with consoleOut := st.consoleOut ++ [(func, templated, object)] }
  else
    { st with consoleOut := st.consoleOut ++ [(func, templated, none)] }

/-- Logger.logToFile: if the map holds a file for the severity, append the
rendered line (with the bracketed JSON form of the object when
includeObjects is truthy and an object was supplied) followed by a
newline; otherwise skip the write silently. Then run reloadFiles. -/
def logToFile (st : LoggerState) (ty : LogType) (templated : String)
    (object : Option String) (now : JsDate) (ok : LogType → Bool) :
    LoggerState :=
  let st1 :=
    match st.logFiles.get ty with
    | some file =>
      if truthy st.settings.includeObjects && object.isSome then
        streamWrite st file (templated ++ "[" ++ object.getD "" ++ "]" ++ "\n")
      else
        streamWrite st file (templated ++ "\n")
    | none => st
  reloadFiles st1 now ok

/-- Logger.assembleTemplate: four chained global replaces over the
template, in the order %date%, %type%, %namespace%, %message%; getDate()
is the ISO rendering of the present instant. -/
def assembleTemplate (st : LoggerState) (now : JsDate) (ty : LogType)
    (message : String) : String :=
  replaceStr
    (replaceStr
      (replaceStr
        (replaceStr st.template "%date%" now.iso)
        "%type%" ty.toString)
      "%namespace%" st.nspace)
    "%message%" message

/-- Logger.info. -/
def info (st : LoggerState) (now : JsDate) (message : String)
    (object : Option String) (ok : LogType → Bool) : LoggerState :=
  let templated := assembleTemplate st now .INFO message
  let st1 := if truthy st.settings.consoleLog then
    logToConsole st "info" templated object else st
  logToFile st1 .INFO templated object now ok

/-- Logger.warn. -/
def warn (st : LoggerState) (now : JsDate) (message : String)
    (object : Option String) (ok : LogType → Bool) : LoggerState :=
  let templated := assembleTemplate st now .WARN message
  let st1 := if truthy st.settings.consoleLog then
    logToConsole st "warn" templated object else st
  logToFile st1 .WARN templated object now ok

/-- Logger.debug. -/
def debug (st : LoggerState) (now : JsDate) (message : String)
    (object : Option String) (ok : LogType → Bool) : LoggerState :=
  let templated := assembleTemplate st now .DEBUG message
  let st1 := if truthy st.settings.consoleLog then
    logToConsole st "debug" templated object else st
  logToFile st1 .DEBUG templated object now ok

/-- Logger.error. -/
def error (st : LoggerState) (now : JsDate) (message : String)
    (object : Option String) (ok : LogType → Bool) : LoggerState :=
  let templated := assembleTemplate st now .ERROR message
  let st1 := if truthy st.settings.consoleLog then
    logToConsole st "error" templated object else st
  logToFile st1 .ERROR templated object now ok

/-- The default template field initializer of the Logger class. -/
def defaultTemplate : String := "[%date%] [%type%] [%namespace%] [%message%]"

/-- The default settings field initializer of the Logger class. -/
def defaultSettings : LoggerSettings := ⟨some true, some true⟩

/-- The Logger constructor: store namespace and logsPath; the template
parameter overrides the default only when truthy (a nonempty string); a
provided settings object replaces the default record wholesale; then run
loadFiles on the present instant. The world starts empty. -/
def mkLogger (nspace logsPath : String) (settings : Option LoggerSettings)
    (template : Option String) (now : JsDate) : LoggerState :=
  let st : LoggerState :=
    { nspace := nspace
      logsPath := logsPath
      template := match template with
        | some t => if t = "" then defaultTemplate else t
        | none => defaultTemplate
      settings := settings.getD defaultSettings
      currentDay := 0
      logFiles := ⟨none, none, none, none⟩
      files := []
      openStreams := []
      nextStreamId := 0
      consoleOut := [] }
  loadFiles st now

/-! Concrete sample data used by counterexamples and witnesses. -/

/-- A sample construction instant: Monday 2024-01-15, 03:07. -/
def D1 : JsDate := ⟨2024, 0, 15, 1, 3, 7, "2024-01-15T03:07:00.000Z"⟩

/-- The following day: Tuesday 2024-01-16, 04:08. -/
def D2 : JsDate := ⟨2024, 0, 16, 2, 4, 8, "2024-01-16T04:08:00.000Z"⟩

/-- A logger constructed with namespace svc, base directory logs, and all
defaults, at instant D1. -/
def st1 : LoggerState := mkLogger "svc" "logs" none none D1

/-- Oracle: every gzip call succeeds. -/
def okAll : LogType → Bool := fun _ => true

/-- Oracle: the gzip call for the info file fails, the others succeed. -/
def okInfoFail : LogType → Bool
  | .INFO => false
  | _ => true

/-! Frame lemmas about the state-passing operations. -/

/-- The configuration part of the logger: namespace, base path, template,
settings. -/
def config (st : LoggerState) : String × String × String × LoggerSettings :=
  (st.nspace, st.logsPath, st.template, st.settings)

lemma config_openLog (st : LoggerState) (ty : LogType) (d n : String) :
    config (openLog st ty d n) = config st := rfl

lemma config_loadFiles (st : LoggerState) (d : JsDate) :
    config (loadFiles st d) = config st := rfl

lemma config_streamWrite (st : LoggerState) (f : LogFile) (s : String) :
    config (streamWrite st f s) = config st := rfl

lemma config_compressFile (st : LoggerState) (ty : LogType) (b : Bool) :
    config (compressFile st ty b) = config st := by
  cases h : st.logFiles.get ty with
  | none => simp [compressFile, h]
  | some f => cases b <;> simp [compressFile, h, config]

lemma config_compressFiles (st : LoggerState) (ok : LogType → Bool) :
    config (compressFiles st ok) = config st := by
  simp [compressFiles, config_compressFile]

lemma config_reloadFiles (st : LoggerState) (now : JsDate)
    (ok : LogType → Bool) : config (reloadFiles st now ok) = config st := by
  unfold reloadFiles
  split
  · rw [config_loadFiles, config_compressFiles]
  · rfl

lemma config_logToConsole (st : LoggerState) (func tpl : String)
    (obj : Option String) : config (logToConsole st func tpl obj) = config st := by
  unfold logToConsole
  split <;> rfl

lemma config_logToFile (st : LoggerState) (ty : LogType) (tpl : String)
    (obj : Option String) (now : JsDate) (ok : LogType → Bool) :
    config (logToFile st ty tpl obj now ok) = config st := by
  unfold logToFile
  rw [config_reloadFiles]
  cases h : st.logFiles.get ty with
  | none => rfl
  | some f => simp only [h]; split <;> rfl

lemma reloadFiles_no_rollover (st : LoggerState) (now : JsDate)
    (ok : LogType → Bool) (h : now.day = st.currentDay) :
    reloadFiles st now ok = st := by
  simp [reloadFiles, h]

lemma logToFile_day_frame (st : LoggerState) (ty : LogType) (tpl : String)
    (obj : Option String) (now : JsDate) (ok : LogType → Bool)
    (h : now.day = st.currentDay) :
    (logToFile st ty tpl obj now ok).currentDay = st.currentDay
      ∧ (logToFile st ty tpl obj now ok).logFiles = st.logFiles := by
  unfold logToFile
  cases hg : st.logFiles.get ty with
  | none => simp only [hg]; rw [reloadFiles_no_rollover st now ok h]; exact ⟨rfl, rfl⟩
  | some f =>
    simp only [hg]
    split <;>
      · rw [reloadFiles_no_rollover (streamWrite st f _) now ok h]
        exact ⟨rfl, rfl⟩

lemma logToConsole_eq (st : LoggerState) (func tpl : String)
    (obj : Option String) :
    logToConsole st func tpl obj
      = { st with consoleOut := st.consoleOut ++
          [(func, tpl,
            if truthy st.settings.includeObjects && obj.isSome then obj
            else none)] } := by
  unfold logToConsole
  split <;> simp_all

/-- A logger-shaped state whose logFiles map is empty, used to witness the
missing-OutputFile path. -/
def emptyFilesLogger : LoggerState :=
  ⟨"svc", "logs", defaultTemplate, defaultSettings, 1, ⟨none, none, none, none⟩,
    [], [], 0, []⟩

/-- C9: if at write time no OutputFile is present for the requested
severity, logToFile skips the file write silently and just runs the
rollover check; no error value exists anywhere in the model (every
operation is total and the public calls return only the new state, so
nothing is reported to the caller). -/
theorem c9_missing_file_skips_write (st : LoggerState) (ty : LogType)
    (tpl : String) (obj : Option String) (now : JsDate) (ok : LogType → Bool)
    (h : st.logFiles.get ty = none) :
    logToFile st ty tpl obj now ok = reloadFiles st now ok := by
  simp [logToFile, h]

/-- Witness for C9 at a concrete state with an empty logFiles map. -/
theorem c9_missing_file_skips_write_witness :
    logToFile emptyFilesLogger .INFO "x" none D1 okAll
      = reloadFiles emptyFilesLogger D1 okAll :=
  c9_missing_file_skips_write emptyFilesLogger .INFO "x" none D1 okAll (by decide)

lemma config_info (st : LoggerState) (now : JsDate) (M : String)
    (obj : Option String) (ok : LogType → Bool) :
    config (info st now M obj ok) = config st := by
  unfold info
  rw [config_logToFile]
  split <;> simp [config_logToConsole]

lemma config_warn (st : LoggerState) (now : JsDate) (M : String)
    (obj : Option String) (ok : LogType → Bool) :
    config (warn st now M obj ok) = config st := by
  unfold warn
  rw [config_logToFile]
  split <;> simp [config_logToConsole]

lemma config_debug (st : LoggerState) (now : JsDate) (M : String)
    (obj : Option String) (ok : LogType → Bool) :
    config (debug st now M obj ok) = config st := by
  unfold debug
  rw [config_logToFile]
  split <;> simp [config_logToConsole]

lemma config_error (st : LoggerState) (now : JsDate) (M : String)
    (obj : Option String) (ok : LogType → Bool) :
    config (error st now M obj ok) = config st := by
  unfold error
  rw [config_logToFile]
  split <;> simp [config_logToConsole]

lemma info_day_frame (st : LoggerState) (now : JsDate) (M : String)
    (obj : Option String) (ok : LogType → Bool)
    (h : now.day = st.currentDay) :
    (info st now M obj ok).currentDay = st.currentDay
      ∧ (info st now M obj ok).logFiles = st.logFiles := by
  unfold info
  split
  · simp only [logToConsole_eq]
    exact logToFile_day_frame _ _ _ _ _ _ h
  · exact logToFile_day_frame _ _ _ _ _ _ h

lemma warn_day_frame (st : LoggerState) (now : JsDate) (M : String)
    (obj : Option String) (ok : LogType → Bool)
    (h : now.day = st.currentDay) :
    (warn st now M obj ok).currentDay = st.currentDay
      ∧ (warn st now M obj ok).logFiles = st.logFiles := by
  unfold warn
  split
  · simp only [logToConsole_eq]
    exact logToFile_day_frame _ _ _ _ _ _ h
  · exact logToFile_day_frame _ _ _ _ _ _ h

lemma debug_day_frame (st : LoggerState) (now : JsDate) (M : String)
    (obj : Option String) (ok : LogType → Bool)
    (h : now.day = st.currentDay) :
    (debug st now M obj ok).currentDay = st.currentDay
      ∧ (debug st now M obj ok).logFiles = st.logFiles := by
  unfold debug
  split
  · simp only [logToConsole_eq]
    exact logToFile_day_frame _ _ _ _ _ _ h
  · exact logToFile_day_frame _ _ _ _ _ _ h

lemma error_day_frame (st : LoggerState) (now : JsDate) (M : String)
    (obj : Option String) (ok : LogType → Bool)
    (h : now.day = st.currentDay) :
    (error st now M obj ok).currentDay = st.currentDay
      ∧ (error st now M obj ok).logFiles = st.logFiles := by
  unfold error
  split
  · simp only [logToConsole_eq]
    exact logToFile_day_frame _ _ _ _ _ _ h
  · exact logToFile_day_frame _ _ _ _ _ _ h

/-- C10: every public logging call (info, warn, debug, error) leaves the
configuration — namespace, base path, template, settings — unchanged, and
when no rollover is detected (the present getDay equals the rotation
marker) the rotation marker and the per-severity OutputFile map are
unchanged as well. -/
theorem c10_public_calls_frame (st : LoggerState) (now : JsDate) (M : String)
    (obj : Option String) (ok : LogType → Bool) :
    (config (info st now M obj ok) = config st
      ∧ (now.day = st.currentDay →
          (info st now M obj ok).currentDay = st.currentDay
            ∧ (info st now M obj ok).logFiles = st.logFiles))
    ∧ (config (warn st now M obj ok) = config st
      ∧ (now.day = st.currentDay →
          (warn st now M obj ok).currentDay = st.currentDay
            ∧ (warn st now M obj ok).logFiles = st.logFiles))
    ∧ (config (debug st now M obj ok) = config st
      ∧ (now.day = st.currentDay →
          (debug st now M obj ok).currentDay = st.currentDay
            ∧ (debug st now M obj ok).logFiles = st.logFiles))
    ∧ (config (error st now M obj ok) = config st
      ∧ (now.day = st.currentDay →
          (error st now M obj ok).currentDay = st.currentDay
            ∧ (error st now M obj ok).logFiles = st.logFiles)) :=
  ⟨⟨config_info st now M obj ok, info_day_frame st now M obj ok⟩,
    ⟨config_warn st now M obj ok, warn_day_frame st now M obj ok⟩,
    ⟨config_debug st now M obj ok, debug_day_frame st now M obj ok⟩,
    ⟨config_error st now M obj ok, error_day_frame st now M obj ok⟩⟩

/-- Witness for C10 at a concrete logger and instant with no rollover. -/
theorem c10_public_calls_frame_witness :
    config (info st1 D1 "m" none okAll) = config st1
      ∧ (info st1 D1 "m" none okAll).logFiles = st1.logFiles
      ∧ config (error st1 D1 "m" none okAll) = config st1 := by
  have h := c10_public_calls_frame st1 D1 "m" none okAll
  exact ⟨h.1.1, (h.1.2 (by decide)).2, h.2.2.2.1⟩

/-! Lemmas about dollar substitution and the single-pass replacement. -/

lemma getSubstitution_cons_ne (m b a : List Char) (c : Char)
    (rest : List Char) (hc : c ≠ '$') :
    getSubstitution m b a (c :: rest) = c :: getSubstitution m b a rest := by
  rw [getSubstitution.eq_def]
  simp [hc]

lemma getSubstitution_append_no_dollar (m b a v w : List Char)
    (hv : '$' ∉ v) :
    getSubstitution m b a (v ++ w) = v ++ getSubstitution m b a w := by
  induction v with
  | nil => rfl
  | cons c v' ih =>
    have hc : c ≠ '$' := fun e => hv (by simp [e])
    have hv' : '$' ∉ v' := fun hm => hv (List.mem_cons_of_mem _ hm)
    simp [getSubstitution_cons_ne m b a c _ hc, ih hv']

lemma getSubstitution_no_dollar (m b a v : List Char) (hv : '$' ∉ v) :
    getSubstitution m b a v = v := by
  have h := getSubstitution_append_no_dollar m b a v [] hv
  rw [List.append_nil] at h
  rw [show getSubstitution m b a ([] : List Char) = [] from rfl,
    List.append_nil] at h
  exact h

lemma getSubstitution_dollar_dollar (m b a r : List Char) :
    getSubstitution m b a ('$' :: '$' :: r)
      = '$' :: getSubstitution m b a r := rfl

lemma getSubstitution_dollar_amp (m b a r : List Char) :
    getSubstitution m b a ('$' :: '&' :: r)
      = m ++ getSubstitution m b a r := rfl

lemma getSubstitution_dollar_tick (m b a r : List Char) :
    getSubstitution m b a ('$' :: '\x60' :: r)
      = b ++ getSubstitution m b a r := rfl

lemma getSubstitution_dollar_quote (m b a r : List Char) :
    getSubstitution m b a ('$' :: '\x27' :: r)
      = a ++ getSubstitution m b a r := rfl

lemma getSubstitution_dollar_other (m b a : List Char) (d : Char)
    (r : List Char) (h1 : d ≠ '$') (h2 : d ≠ '&') (h3 : d ≠ '\x60')
    (h4 : d ≠ '\x27') :
    getSubstitution m b a ('$' :: d :: r)
      = '$' :: getSubstitution m b a (d :: r) := by
  rw [getSubstitution.eq_def]
  simp [h1, h2, h3, h4]

/-- A block of the replacement text that contains no dollar, and whose
head a preceding dollar cannot pair with, is emitted contiguously by
dollar substitution wherever it sits inside the replacement. -/
lemma getSubstitution_infix (m b a v : List Char) (hv : '$' ∉ v)
    (hhd : ∀ d vt, v = d :: vt →
      d ≠ '$' ∧ d ≠ '&' ∧ d ≠ '\x60' ∧ d ≠ '\x27') :
    ∀ n u w, u.length ≤ n →
      v <:+: getSubstitution m b a (u ++ (v ++ w)) := by
  intro n
  induction n with
  | zero =>
    intro u w hu
    obtain rfl : u = [] := List.length_eq_zero.mp (Nat.le_zero.mp hu)
    rw [List.nil_append, getSubstitution_append_no_dollar m b a v w hv]
    exact ⟨[], getSubstitution m b a w, by simp⟩
  | succ n ih =>
    intro u w hu
    rcases u with _ | ⟨c, u'⟩
    · rw [List.nil_append, getSubstitution_append_no_dollar m b a v w hv]
      exact ⟨[], getSubstitution m b a w, by simp⟩
    · by_cases hc : c = '$'
      · subst hc
        rcases u' with _ | ⟨d, u''⟩
        · rcases hV : v with _ | ⟨d, vt⟩
          · exact List.nil_infix
          · obtain ⟨e1, e2, e3, e4⟩ := hhd d vt hV
            show (d :: vt) <:+:
              getSubstitution m b a ('$' :: d :: (vt ++ w))
            rw [getSubstitution_dollar_other m b a d (vt ++ w) e1 e2 e3 e4]
            show (d :: vt) <:+:
              '$' :: getSubstitution m b a ((d :: vt) ++ w)
            rw [getSubstitution_append_no_dollar m b a (d :: vt) w (hV ▸ hv)]
            exact ⟨['$'], getSubstitution m b a w, by simp⟩
        · by_cases h1 : d = '$'
          · subst h1
            show v <:+:
              getSubstitution m b a ('$' :: '$' :: (u'' ++ (v ++ w)))
            rw [getSubstitution_dollar_dollar]
            exact (ih u'' w (by simp at hu; omega)).trans
              (List.suffix_cons _ _).isInfix
          · by_cases h2 : d = '&'
            · subst h2
              show v <:+:
                getSubstitution m b a ('$' :: '&' :: (u'' ++ (v ++ w)))
              rw [getSubstitution_dollar_amp]
              exact (ih u'' w (by simp at hu; omega)).trans
                (List.suffix_append _ _).isInfix
            · by_cases h3 : d = '\x60'
              · subst h3
                show v <:+:
                  getSubstitution m b a ('$' :: '\x60' :: (u'' ++ (v ++ w)))
                rw [getSubstitution_dollar_tick]
                exact (ih u'' w (by simp at hu; omega)).trans
                  (List.suffix_append _ _).isInfix
              · by_cases h4 : d = '\x27'
                · subst h4
                  show v <:+:
                    getSubstitution m b a ('$' :: '\x27' :: (u'' ++ (v ++ w)))
                  rw [getSubstitution_dollar_quote]
                  exact (ih u'' w (by simp at hu; omega)).trans
                    (List.suffix_append _ _).isInfix
                · show v <:+:
                    getSubstitution m b a ('$' :: d :: (u'' ++ (v ++ w)))
                  rw [getSubstitution_dollar_other m b a d _ h1 h2 h3 h4]
                  exact (ih (d :: u'') w (by
                    simp only [List.length_cons] at hu ⊢
                    omega)).trans (List.suffix_cons _ _).isInfix
      · show v <:+: getSubstitution m b a (c :: (u' ++ (v ++ w)))
        rw [getSubstitution_cons_ne m b a c _ hc]
        exact (ih u' w (by simp at hu; omega)).trans
          (List.suffix_cons _ _).isInfix

lemma replaceGo_cons_ne (pat rep S : List Char) (c : Char) (cs : List Char)
    (pos : Nat) (h : ¬ pat.isPrefixOf (c :: cs)) :
    replaceGo pat rep S (c :: cs) pos 0
      = c :: replaceGo pat rep S cs (pos + 1) 0 := by
  simp [replaceGo, h]

lemma replaceGo_cons_match (pat rep S : List Char) (c : Char)
    (cs : List Char) (pos : Nat) (hpre : pat.isPrefixOf (c :: cs)) :
    replaceGo pat rep S (c :: cs) pos 0
      = getSubstitution pat (S.take pos) (S.drop (pos + pat.length)) rep
          ++ replaceGo pat rep S cs (pos + 1) (pat.length - 1) := by
  simp [replaceGo, hpre]

lemma replaceGo_skip (pat rep S x b : List Char) :
    ∀ pos, replaceGo pat rep S (x ++ b) pos x.length
      = replaceGo pat rep S b (pos + x.length) 0 := by
  induction x with
  | nil => intro pos; rfl
  | cons c cs ih =>
    intro pos
    show replaceGo pat rep S (cs ++ b) (pos + 1) cs.length
      = replaceGo pat rep S b (pos + (cs.length + 1)) 0
    rw [ih (pos + 1),
      show pos + 1 + cs.length = pos + (cs.length + 1) from by omega]

lemma replaceGo_no_occ (pat rep S l : List Char)
    (h : ∀ i < l.length, ¬ pat.isPrefixOf (l.drop i)) :
    ∀ pos, replaceGo pat rep S l pos 0 = l := by
  induction l with
  | nil => intro pos; rfl
  | cons c cs ih =>
    intro pos
    have h0 : ¬ pat.isPrefixOf (c :: cs) := by simpa using h 0 (by simp)
    rw [replaceGo_cons_ne pat rep S c cs pos h0]
    rw [ih (fun i hi => by
      simpa using h (i + 1) (by simpa using Nat.succ_lt_succ hi)) (pos + 1)]

lemma replaceGo_split (pat rep S a b : List Char) (hne : pat ≠ [])
    (h : ∀ i < a.length, ¬ pat.isPrefixOf ((a ++ pat ++ b).drop i)) :
    ∀ pos, replaceGo pat rep S (a ++ pat ++ b) pos 0
      = a ++ getSubstitution pat (S.take (pos + a.length))
            (S.drop (pos + a.length + pat.length)) rep
          ++ replaceGo pat rep S b (pos + a.length + pat.length) 0 := by
  induction a with
  | nil =>
    intro pos
    obtain ⟨p, ps, rfl⟩ : ∃ p ps, pat = p :: ps := by
      cases pat with
      | nil => exact absurd rfl hne
      | cons p ps => exact ⟨p, ps, rfl⟩
    have hpre : (p :: ps).isPrefixOf ((p :: ps) ++ b) := by
      rw [List.isPrefixOf_iff_prefix]
      exact List.prefix_append _ _
    simp only [List.nil_append, List.length_nil, Nat.add_zero]
    rw [show (p :: ps) ++ b = p :: (ps ++ b) from rfl]
    rw [replaceGo_cons_match (p :: ps) rep S p (ps ++ b) pos hpre]
    rw [show (p :: ps).length - 1 = ps.length from by simp]
    rw [replaceGo_skip (p :: ps) rep S ps b (pos + 1)]
    rw [show pos + 1 + ps.length = pos + (p :: ps).length from by
      simp only [List.length_cons]; omega]
  | cons c cs ih =>
    intro pos
    have h0 : ¬ pat.isPrefixOf (c :: (cs ++ pat ++ b)) := by
      simpa using h 0 (by simp)
    rw [show (c :: cs) ++ pat ++ b = c :: (cs ++ pat ++ b) from rfl]
    rw [replaceGo_cons_ne pat rep S c (cs ++ pat ++ b) pos h0]
    rw [ih (fun i hi => by
      simpa using h (i + 1) (by simpa using Nat.succ_lt_succ hi)) (pos + 1)]
    rw [show pos + 1 + cs.length = pos + (c :: cs).length from by
      simp only [List.length_cons]; omega]
    rfl

/-- The last substitution pass, exactly: when the subject splits as
pre ++ %message% ++ ] with no occurrence of %message% inside pre, the
replacement inserts the GetSubstitution expansion of the message (with
the matched %message%, the preceding text pre and the following text ])
and never rescans it. -/
lemma replaceStr_eq (S pre M : String)
    (hS : S.data = pre.data ++ "%message%".data ++ "]".data)
    (hocc : ∀ i < pre.data.length,
      ¬ ("%message%".data).isPrefixOf
          ((pre.data ++ "%message%".data ++ "]".data).drop i)) :
    (replaceStr S "%message%" M).data
      = pre.data
          ++ getSubstitution "%message%".data pre.data "]".data M.data
          ++ "]".data := by
  show replaceGo "%message%".data M.data S.data S.data 0 0 = _
  rw [hS]
  rw [replaceGo_split "%message%".data M.data _ pre.data "]".data
    (by decide) hocc 0]
  rw [replaceGo_no_occ _ _ _ _ (by decide) _]
  rw [show (0 : Nat) + pre.data.length = pre.data.length from by omega]
  rw [show (pre.data ++ "%message%".data ++ "]".data).take pre.data.length
      = pre.data from by
    rw [List.append_assoc]
    exact List.take_left _ _]
  rw [show (pre.data ++ "%message%".data
        ++ "]".data).drop (pre.data.length + "%message%".data.length)
      = "]".data from by
    rw [← List.length_append]
    exact List.drop_left _ _]

/-- The last substitution pass for a message free of dollar sequences:
the message is inserted verbatim. -/
lemma replaceStr_message (S pre M : String)
    (hS : S.data = pre.data ++ "%message%".data ++ "]".data)
    (hocc : ∀ i < pre.data.length,
      ¬ ("%message%".data).isPrefixOf
          ((pre.data ++ "%message%".data ++ "]".data).drop i))
    (hM : '$' ∉ M.data) :
    replaceStr S "%message%" M = pre ++ M ++ "]" := by
  apply String.ext
  rw [replaceStr_eq S pre M hS hocc,
    getSubstitution_no_dollar _ _ _ _ hM,
    String.data_append, String.data_append]

/-! Rendering of the default template at the sample logger st1. -/

lemma assembleTemplate_st1_INFO_data (M : String) :
    (assembleTemplate st1 D1 .INFO M).data
      = "[2024-01-15T03:07:00.000Z] [0] [svc] [".data
          ++ getSubstitution "%message%".data
              "[2024-01-15T03:07:00.000Z] [0] [svc] [".data "]".data M.data
          ++ "]".data := by
  show (replaceStr _ "%message%" M).data = _
  rw [show replaceStr (replaceStr (replaceStr st1.template "%date%" D1.iso)
      "%type%" (LogType.INFO).toString) "%namespace%" st1.nspace
      = "[2024-01-15T03:07:00.000Z] [0] [svc] [%message%]" from by decide]
  exact replaceStr_eq _ "[2024-01-15T03:07:00.000Z] [0] [svc] [" M
    (by decide) (by decide)

lemma assembleTemplate_st1_INFO (M : String) (hM : '$' ∉ M.data) :
    assembleTemplate st1 D1 .INFO M
      = "[2024-01-15T03:07:00.000Z] [0] [svc] [" ++ M ++ "]" := by
  show replaceStr _ "%message%" M = _
  rw [show replaceStr (replaceStr (replaceStr st1.template "%date%" D1.iso)
      "%type%" (LogType.INFO).toString) "%namespace%" st1.nspace
      = "[2024-01-15T03:07:00.000Z] [0] [svc] [%message%]" from by decide]
  exact replaceStr_message _ _ M (by decide) (by decide) hM

/-- C7: template substitution is single-pass over the template — the
message is inserted by the last replace and never rescanned for
placeholders. Exactly: (1) for every message M the output is the prefix,
then the ECMAScript dollar-substitution expansion of M against the
%message% match, then the closing bracket; (2) a message free of
dollar sequences is inserted verbatim; (3) a literal %namespace% inside
the message always appears verbatim in the output and is not
re-substituted with the namespace. -/
theorem c7_single_pass_substitution :
    (∀ M : String, (assembleTemplate st1 D1 .INFO M).data
        = "[2024-01-15T03:07:00.000Z] [0] [svc] [".data
            ++ getSubstitution "%message%".data
                "[2024-01-15T03:07:00.000Z] [0] [svc] [".data "]".data M.data
            ++ "]".data)
      ∧ (∀ M : String, '$' ∉ M.data →
          assembleTemplate st1 D1 .INFO M
            = "[2024-01-15T03:07:00.000Z] [0] [svc] [" ++ M ++ "]")
      ∧ (∀ u w : String, "%namespace%".data
          <:+: (assembleTemplate st1 D1 .INFO (u ++ "%namespace%" ++ w)).data) := by
  refine ⟨assembleTemplate_st1_INFO_data, assembleTemplate_st1_INFO, ?_⟩
  intro u w
  rw [assembleTemplate_st1_INFO_data (u ++ "%namespace%" ++ w)]
  rw [show (u ++ "%namespace%" ++ w).data
      = u.data ++ ("%namespace%".data ++ w.data) from by
    rw [String.data_append, String.data_append, List.append_assoc]]
  have hinf := getSubstitution_infix "%message%".data
    "[2024-01-15T03:07:00.000Z] [0] [svc] [".data "]".data
    "%namespace%".data (by decide)
    (fun d vt hdv => by
      have h' : ('%' :: "namespace%".data : List Char) = d :: vt := hdv
      injection h' with h1 h2
      subst h1
      decide)
    u.data.length u.data w.data (Nat.le_refl _)
  exact (hinf.trans (List.suffix_append _ _).isInfix).trans
    (List.prefix_append _ _).isInfix

/-- Witness for C7 at concrete messages. -/
theorem c7_single_pass_substitution_witness :
    assembleTemplate st1 D1 .INFO "a %namespace% b"
        = "[2024-01-15T03:07:00.000Z] [0] [svc] ["
            ++ "a %namespace% b" ++ "]"
      ∧ "%namespace%".data
        <:+: (assembleTemplate st1 D1 .INFO
            ("x " ++ "%namespace%" ++ " y")).data :=
  ⟨c7_single_pass_substitution.2.1 "a %namespace% b" (by decide),
    c7_single_pass_substitution.2.2 "x " " y"⟩

/-! C2: on-disk layout. -/

lemma loadFiles_get_INFO (st : LoggerState) (d : JsDate) :
    (loadFiles st d).logFiles.get .INFO
      = some ⟨pathJoin [st.logsPath, "info", logDirOf d], logNameOf d,
          st.nextStreamId⟩ := rfl

lemma loadFiles_get_WARN (st : LoggerState) (d : JsDate) :
    (loadFiles st d).logFiles.get .WARN
      = some ⟨pathJoin [st.logsPath, "warn", logDirOf d], logNameOf d,
          st.nextStreamId + 1⟩ := rfl

lemma loadFiles_get_DEBUG (st : LoggerState) (d : JsDate) :
    (loadFiles st d).logFiles.get .DEBUG
      = some ⟨pathJoin [st.logsPath, "debug", logDirOf d], logNameOf d,
          st.nextStreamId + 2⟩ := rfl

lemma loadFiles_get_ERROR (st : LoggerState) (d : JsDate) :
    (loadFiles st d).logFiles.get .ERROR
      = some ⟨pathJoin [st.logsPath, "error", logDirOf d], logNameOf d,
          st.nextStreamId + 3⟩ := rfl

/-- The sample instant for the C2 counterexample: Friday 2024-03-15,
03:07 — month index 2 (March), day of month 15, day of week 5. -/
def dC2 : JsDate := ⟨2024, 2, 15, 5, 3, 7, "2024-03-15T03:07:00.000Z"⟩

/-- C2, counterexample: at a construction on 2024-03-15 (month index 2,
day of month 15, weekday 5) the info file is opened under
logs/info/2024/February/05-03_07.log — the month name is February
instead of March and the day component is the weekday 05 instead of the
day of month 15 — which differs from the path the claim predicts. -/
theorem c2_counterexample :
    (mkLogger "svc" "logs" none none dC2).logFiles.get .INFO
        = some ⟨"logs/info/2024/February", "05-03_07.log", 0⟩
      ∧ pathJoin ["logs/info/2024/February", "05-03_07.log"]
        ≠ "logs/info/2024/March/15-03_07.log" := by
  decide

/-- C2, amended: every file open (construction and rotation both go
through loadFiles) opens each severity file at
logsPath/severity/year/monthName/DW-HH_MM.log, where DW is the 2-digit
zero-padded day of the WEEK (getDay) of the rotation moment, and
monthName maps the 0-based month index m through parseMonth, which sends
both 0 and 1 to January and index m at least 2 to the English name of
the m-th month in 1-based counting (off by one from the claimed 0-based
mapping; December is unreachable). -/
theorem c2_amended_layout (st : LoggerState) (d : JsDate) :
    ((loadFiles st d).logFiles.get .INFO
        = some ⟨pathJoin [st.logsPath, "info",
            pathJoin [toString d.fullYear, parseMonth d.month]],
            beautifyNumber d.day ++ "-" ++ beautifyNumber d.hours ++ "_" ++
              beautifyNumber d.minutes ++ ".log", st.nextStreamId⟩
      ∧ (loadFiles st d).logFiles.get .WARN
        = some ⟨pathJoin [st.logsPath, "warn",
            pathJoin [toString d.fullYear, parseMonth d.month]],
            beautifyNumber d.day ++ "-" ++ beautifyNumber d.hours ++ "_" ++
              beautifyNumber d.minutes ++ ".log", st.nextStreamId + 1⟩
      ∧ (loadFiles st d).logFiles.get .DEBUG
        = some ⟨pathJoin [st.logsPath, "debug",
            pathJoin [toString d.fullYear, parseMonth d.month]],
            beautifyNumber d.day ++ "-" ++ beautifyNumber d.hours ++ "_" ++
              beautifyNumber d.minutes ++ ".log", st.nextStreamId + 2⟩
      ∧ (loadFiles st d).logFiles.get .ERROR
        = some ⟨pathJoin [st.logsPath, "error",
            pathJoin [toString d.fullYear, parseMonth d.month]],
            beautifyNumber d.day ++ "-" ++ beautifyNumber d.hours ++ "_" ++
              beautifyNumber d.minutes ++ ".log", st.nextStreamId + 3⟩)
    ∧ (parseMonth 0 = "January" ∧ parseMonth 1 = "January"
      ∧ parseMonth 2 = "February" ∧ parseMonth 3 = "March"
      ∧ parseMonth 4 = "April" ∧ parseMonth 5 = "May"
      ∧ parseMonth 6 = "June" ∧ parseMonth 7 = "July"
      ∧ parseMonth 8 = "August" ∧ parseMonth 9 = "September"
      ∧ parseMonth 10 = "October" ∧ parseMonth 11 = "November") :=
  ⟨⟨rfl, rfl, rfl, rfl⟩,
    rfl, rfl, rfl, rfl, rfl, rfl, rfl, rfl, rfl, rfl, rfl, rfl⟩

/-! C3: constructor settings handling. -/

/-- A logger constructed with a settings record that sets consoleLog but
omits includeObjects. -/
def stC3 : LoggerState := mkLogger "svc" "logs" (some ⟨some true, none⟩) none D1

/-- C3, counterexample: when the passed settings record omits
includeObjects, supplying an object to info does NOT append its JSON
form — the written line is the bare rendered line, not the suffixed line
the claim predicts. -/
theorem c3_counterexample :
    getFile (info stC3 D1 "boot" (some "1") okAll).files
        "logs/info/2024/January/01-03_07.log"
      = some "[2024-01-15T03:07:00.000Z] [0] [svc] [boot]\n"
    ∧ getFile (info stC3 D1 "boot" (some "1") okAll).files
        "logs/info/2024/January/01-03_07.log"
      ≠ some "[2024-01-15T03:07:00.000Z] [0] [svc] [boot][1]\n" := by
  decide

/-- C3, amended: a provided settings record replaces the default record
wholesale — the defaults (all true) apply only when no record is passed;
an option left unset in a provided record is undefined and therefore
behaves as false, so omitting includeObjects suppresses the JSON suffix
even when an object is supplied. -/
theorem c3_amended_settings_replacement (ns lp : String) (s : LoggerSettings)
    (t : Option String) (d : JsDate) :
    (mkLogger ns lp (some s) t d).settings = s
      ∧ (mkLogger ns lp none t d).settings = defaultSettings
      ∧ truthy defaultSettings.consoleLog = true
      ∧ truthy defaultSettings.includeObjects = true
      ∧ truthy (none : Option Bool) = false
      ∧ getFile (info stC3 D1 "boot" (some "1") okAll).files
          "logs/info/2024/January/01-03_07.log"
        = some "[2024-01-15T03:07:00.000Z] [0] [svc] [boot]\n" :=
  ⟨rfl, rfl, rfl, rfl, rfl, by decide⟩

/-! C6: stream lifecycle. -/

/-- The severity subdirectory name used for each LogType. -/
def severityDir : LogType → String
  | .INFO => "info"
  | .WARN => "warn"
  | .DEBUG => "debug"
  | .ERROR => "error"

lemma openStreams_compressFile (st : LoggerState) (ty : LogType) (b : Bool) :
    (compressFile st ty b).openStreams = st.openStreams := by
  cases h : st.logFiles.get ty with
  | none => simp [compressFile, h]
  | some f => cases b <;> simp [compressFile, h]

lemma openStreams_compressFiles (st : LoggerState) (ok : LogType → Bool) :
    (compressFiles st ok).openStreams = st.openStreams := by
  simp [compressFiles, openStreams_compressFile]

lemma loadFiles_openStreams_suffix (st : LoggerState) (d : JsDate) :
    st.openStreams <:+ (loadFiles st d).openStreams :=
  ⟨[(st.nextStreamId + 3,
      pathJoin [pathJoin [st.logsPath, "error", logDirOf d], logNameOf d]),
    (st.nextStreamId + 2,
      pathJoin [pathJoin [st.logsPath, "debug", logDirOf d], logNameOf d]),
    (st.nextStreamId + 1,
      pathJoin [pathJoin [st.logsPath, "warn", logDirOf d], logNameOf d]),
    (st.nextStreamId,
      pathJoin [pathJoin [st.logsPath, "info", logDirOf d], logNameOf d])],
    rfl⟩

lemma reloadFiles_openStreams_suffix (st : LoggerState) (now : JsDate)
    (ok : LogType → Bool) :
    st.openStreams <:+ (reloadFiles st now ok).openStreams := by
  unfold reloadFiles
  split
  · have h := loadFiles_openStreams_suffix (compressFiles st ok) now
    rwa [openStreams_compressFiles] at h
  · exact List.suffix_refl _

/-- C6, counterexample: after the rotation triggered by an info call on
the next day, the previous generation's info stream (id 0) is still open
alongside the new generation's info stream (id 4) — all eight streams
ever opened are open — so it is false that exactly one OutputFile per
severity is open and that rotation closes the previous write handle. -/
theorem c6_counterexample :
    (0, "logs/info/2024/January/01-03_07.log")
        ∈ (info st1 D2 "a" none okAll).openStreams
      ∧ (4, "logs/info/2024/January/02-04_08.log")
        ∈ (info st1 D2 "a" none okAll).openStreams
      ∧ (info st1 D2 "a" none okAll).openStreams.length = 8 := by
  decide

/-- C6, amended: rotation never closes any write handle — the set of open
streams only grows (the previous list is a suffix of the new one), so
both generations' handles stay open; what does hold is that the map
tracks exactly one current OutputFile per severity, and the four
OutputFiles of a generation share the same file-name stem while living
under severity-specific subdirectories of logsPath. -/
theorem c6_amended_streams_and_stems (st : LoggerState) (now : JsDate)
    (ok : LogType → Bool) (d : JsDate) :
    st.openStreams <:+ (reloadFiles st now ok).openStreams
      ∧ (∀ ty ty' f f', (loadFiles st d).logFiles.get ty = some f →
          (loadFiles st d).logFiles.get ty' = some f' →
          f.fileName = f'.fileName)
      ∧ (∀ ty f, (loadFiles st d).logFiles.get ty = some f →
          f.filePath = pathJoin [st.logsPath, severityDir ty, logDirOf d]
            ∧ f.fileName = logNameOf d) := by
  refine ⟨reloadFiles_openStreams_suffix st now ok, ?_, ?_⟩
  · intro ty ty' f f' hf hf'
    cases ty <;> cases ty' <;>
      simp only [loadFiles_get_INFO, loadFiles_get_WARN, loadFiles_get_DEBUG,
        loadFiles_get_ERROR, Option.some.injEq] at hf hf' <;>
      subst hf <;> subst hf' <;> rfl
  · intro ty f hf
    cases ty <;>
      simp only [loadFiles_get_INFO, loadFiles_get_WARN, loadFiles_get_DEBUG,
        loadFiles_get_ERROR, Option.some.injEq] at hf <;>
      subst hf <;> exact ⟨rfl, rfl⟩

/-- Witness for C6 amended, at the sample logger and instants. -/
theorem c6_amended_streams_and_stems_witness :
    emptyFilesLogger.openStreams
        <:+ (reloadFiles emptyFilesLogger D2 okAll).openStreams
      ∧ (⟨"logs/info/2024/January", "01-03_07.log", 0⟩ : LogFile).fileName
        = (⟨"logs/warn/2024/January", "01-03_07.log", 1⟩ : LogFile).fileName := by
  have h := c6_amended_streams_and_stems emptyFilesLogger D2 okAll D1
  refine ⟨h.1, ?_⟩
  have := h.2.1 .INFO .WARN
    ⟨"logs/info/2024/January", "01-03_07.log", 0⟩
    ⟨"logs/warn/2024/January", "01-03_07.log", 1⟩ (by decide) (by decide)
  exact this

/-- C5: when gzip fails for the info file during the rotation triggered
by an info call on a new day, the failure is reported on the console
together with the offending path, the old uncompressed info file stays
on disk with its content (and no .gz sibling appears for it), a fresh
info file for the new period is still opened, and the next info call's
line lands in that new file. -/
theorem c5_compression_failure_recovery :
    ("error",
        "Couldn\x27t compress file logs/info/2024/January/01-03_07.log",
        some "error")
      ∈ (info (info st1 D2 "a" none okInfoFail) D2 "b" none
          okInfoFail).consoleOut
    ∧ getFile (info (info st1 D2 "a" none okInfoFail) D2 "b" none
          okInfoFail).files "logs/info/2024/January/01-03_07.log"
      = some "[2024-01-16T04:08:00.000Z] [0] [svc] [a]\n"
    ∧ getFile (info (info st1 D2 "a" none okInfoFail) D2 "b" none
          okInfoFail).files "logs/info/2024/January/01-03_07.log.gz"
      = none
    ∧ (info st1 D2 "a" none okInfoFail).logFiles.get .INFO
      = some ⟨"logs/info/2024/January", "02-04_08.log", 4⟩
    ∧ getFile (info (info st1 D2 "a" none okInfoFail) D2 "b" none
          okInfoFail).files "logs/info/2024/January/02-04_08.log"
      = some "[2024-01-16T04:08:00.000Z] [0] [svc] [b]\n" := by
  decide

/-! Lookup lemmas for the on-disk file map. -/

lemma getFile_setFile_self (fs : List (String × String)) (p v : String) :
    getFile (setFile fs p v) p = some v := by
  simp [getFile, setFile, List.lookup]

lemma getFile_setFile_ne (fs : List (String × String)) (p q v : String)
    (h : p ≠ q) : getFile (setFile fs q v) p = getFile fs p := by
  have hb : (p == q) = false := beq_eq_false_iff_ne.mpr h
  simp [getFile, setFile, List.lookup, hb]

lemma compressFile_logFiles (st : LoggerState) (ty : LogType) (b : Bool) :
    (compressFile st ty b).logFiles = st.logFiles := by
  cases h : st.logFiles.get ty with
  | none => simp [compressFile, h]
  | some f => cases b <;> simp [compressFile, h]

lemma compressFile_logsPath (st : LoggerState) (ty : LogType) (b : Bool) :
    (compressFile st ty b).logsPath = st.logsPath := by
  cases h : st.logFiles.get ty with
  | none => simp [compressFile, h]
  | some f => cases b <;> simp [compressFile, h]

lemma compressFiles_logsPath (st : LoggerState) (ok : LogType → Bool) :
    (compressFiles st ok).logsPath = st.logsPath := by
  simp [compressFiles, compressFile_logsPath]

lemma compressFile_files_pres (st : LoggerState) (ty : LogType) (b : Bool)
    (p : String)
    (hp : ∀ f', st.logFiles.get ty = some f' → fullPath f' ++ ".gz" ≠ p) :
    getFile (compressFile st ty b).files p = getFile st.files p := by
  cases hg : st.logFiles.get ty with
  | none => simp [compressFile, hg]
  | some f' =>
    cases b with
    | false => simp [compressFile, hg]
    | true =>
      simp only [compressFile, hg, if_true]
      exact getFile_setFile_ne _ _ _ _ (Ne.symm (hp f' hg))

lemma compressFiles_files_pres (st : LoggerState) (ok : LogType → Bool)
    (p : String)
    (hp : ∀ ty f', st.logFiles.get ty = some f' → fullPath f' ++ ".gz" ≠ p) :
    getFile (compressFiles st ok).files p = getFile st.files p := by
  show getFile (compressFile (compressFile (compressFile
      (compressFile st .INFO (ok .INFO)) .WARN (ok .WARN)) .DEBUG (ok .DEBUG))
      .ERROR (ok .ERROR)).files p = getFile st.files p
  have l1 : (compressFile st .INFO (ok .INFO)).logFiles = st.logFiles :=
    compressFile_logFiles _ _ _
  have l2 : (compressFile (compressFile st .INFO (ok .INFO)) .WARN
      (ok .WARN)).logFiles = st.logFiles := by
    rw [compressFile_logFiles, l1]
  have l3 : (compressFile (compressFile (compressFile st .INFO (ok .INFO))
      .WARN (ok .WARN)) .DEBUG (ok .DEBUG)).logFiles = st.logFiles := by
    rw [compressFile_logFiles, l2]
  rw [compressFile_files_pres _ .ERROR _ p
        (fun f' h => hp .ERROR f' (by rwa [l3] at h)),
      compressFile_files_pres _ .DEBUG _ p
        (fun f' h => hp .DEBUG f' (by rwa [l2] at h)),
      compressFile_files_pres _ .WARN _ p
        (fun f' h => hp .WARN f' (by rwa [l1] at h)),
      compressFile_files_pres _ .INFO _ p (hp .INFO)]

/-- The full path of the file a fresh generation opens for a severity
directory name, as a function of the base directory and the rotation
instant. -/
def genFilePath (lp sev : String) (d : JsDate) : String :=
  pathJoin [pathJoin [lp, sev, logDirOf d], logNameOf d]

lemma loadFiles_files_pres (st : LoggerState) (d : JsDate) (p : String)
    (h1 : genFilePath st.logsPath "info" d ≠ p)
    (h2 : genFilePath st.logsPath "warn" d ≠ p)
    (h3 : genFilePath st.logsPath "debug" d ≠ p)
    (h4 : genFilePath st.logsPath "error" d ≠ p) :
    getFile (loadFiles st d).files p = getFile st.files p := by
  show getFile (setFile (setFile (setFile (setFile st.files
      (genFilePath st.logsPath "info" d) "")
      (genFilePath st.logsPath "warn" d) "")
      (genFilePath st.logsPath "debug" d) "")
      (genFilePath st.logsPath "error" d) "") p = getFile st.files p
  rw [getFile_setFile_ne _ _ _ _ (Ne.symm h4),
    getFile_setFile_ne _ _ _ _ (Ne.symm h3),
    getFile_setFile_ne _ _ _ _ (Ne.symm h2),
    getFile_setFile_ne _ _ _ _ (Ne.symm h1)]

lemma loadFiles_files_new_info (st : LoggerState) (d : JsDate)
    (h2 : genFilePath st.logsPath "warn" d ≠ genFilePath st.logsPath "info" d)
    (h3 : genFilePath st.logsPath "debug" d ≠ genFilePath st.logsPath "info" d)
    (h4 : genFilePath st.logsPath "error" d ≠ genFilePath st.logsPath "info" d) :
    getFile (loadFiles st d).files (genFilePath st.logsPath "info" d)
      = some "" := by
  show getFile (setFile (setFile (setFile (setFile st.files
      (genFilePath st.logsPath "info" d) "")
      (genFilePath st.logsPath "warn" d) "")
      (genFilePath st.logsPath "debug" d) "")
      (genFilePath st.logsPath "error" d) "")
      (genFilePath st.logsPath "info" d) = some ""
  rw [getFile_setFile_ne _ _ _ _ (Ne.symm h4),
    getFile_setFile_ne _ _ _ _ (Ne.symm h3),
    getFile_setFile_ne _ _ _ _ (Ne.symm h2),
    getFile_setFile_self]

/-- The core of C4, at the level of logToFile: the line is appended to
the currently mapped info file first, and only then does the rollover
check rotate, truncating a fresh file for the new period. -/
lemma logToFile_rotation_core (st : LoggerState) (now : JsDate) (tpl : String)
    (ok : LogType → Bool) (f : LogFile) (content : String)
    (hI : st.logFiles.get .INFO = some f)
    (hd : now.day ≠ st.currentDay)
    (hc : getFile st.files (fullPath f) = some content)
    (hnI : genFilePath st.logsPath "info" now ≠ fullPath f)
    (hnW : genFilePath st.logsPath "warn" now ≠ fullPath f)
    (hnD : genFilePath st.logsPath "debug" now ≠ fullPath f)
    (hnE : genFilePath st.logsPath "error" now ≠ fullPath f)
    (hgz : ∀ ty f', st.logFiles.get ty = some f' →
      fullPath f' ++ ".gz" ≠ fullPath f)
    (hsW : genFilePath st.logsPath "warn" now
      ≠ genFilePath st.logsPath "info" now)
    (hsD : genFilePath st.logsPath "debug" now
      ≠ genFilePath st.logsPath "info" now)
    (hsE : genFilePath st.logsPath "error" now
      ≠ genFilePath st.logsPath "info" now) :
    getFile (logToFile st .INFO tpl none now ok).files (fullPath f)
        = some (content ++ (tpl ++ "\n"))
      ∧ getFile (logToFile st .INFO tpl none now ok).files
          (genFilePath st.logsPath "info" now) = some ""
      ∧ (logToFile st .INFO tpl none now ok).currentDay = now.day := by
  have hlf : logToFile st .INFO tpl none now ok
      = loadFiles (compressFiles (streamWrite st f (tpl ++ "\n")) ok) now := by
    unfold logToFile
    simp only [hI]
    rw [if_neg (by simp)]
    unfold reloadFiles
    rw [if_pos (show now.day ≠ (streamWrite st f (tpl ++ "\n")).currentDay
      from hd)]
  have hswlookup : getFile (streamWrite st f (tpl ++ "\n")).files (fullPath f)
      = some (content ++ (tpl ++ "\n")) := by
    unfold streamWrite
    rw [getFile_setFile_self, hc]
    rfl
  have hCfiles : getFile (compressFiles (streamWrite st f (tpl ++ "\n"))
      ok).files (fullPath f)
      = getFile (streamWrite st f (tpl ++ "\n")).files (fullPath f) :=
    compressFiles_files_pres _ ok _ (fun ty f' h => hgz ty f' h)
  have hlp : (compressFiles (streamWrite st f (tpl ++ "\n")) ok).logsPath
      = st.logsPath := (compressFiles_logsPath _ _).trans rfl
  rw [hlf]
  refine ⟨?_, ?_, rfl⟩
  · exact (loadFiles_files_pres _ now _ (by rw [hlp]; exact hnI)
      (by rw [hlp]; exact hnW) (by rw [hlp]; exact hnD)
      (by rw [hlp]; exact hnE)).trans (hCfiles.trans hswlookup)
  · have h := loadFiles_files_new_info
      (compressFiles (streamWrite st f (tpl ++ "\n")) ok) now
      (by rw [hlp]; exact hsW) (by rw [hlp]; exact hsD)
      (by rw [hlp]; exact hsE)
    rwa [hlp] at h

/-- C4: an emit call whose instant's getDay first differs from the
rotation marker appends its rendered line to the previous generation's
info file before the rollover check runs; the rotation it then triggers
opens the new generation's info file empty and advances the marker. -/
theorem c4_write_before_rotation (st : LoggerState) (now : JsDate)
    (M : String) (ok : LogType → Bool) (f : LogFile) (content : String)
    (hI : st.logFiles.get .INFO = some f)
    (hd : now.day ≠ st.currentDay)
    (hc : getFile st.files (fullPath f) = some content)
    (hnI : genFilePath st.logsPath "info" now ≠ fullPath f)
    (hnW : genFilePath st.logsPath "warn" now ≠ fullPath f)
    (hnD : genFilePath st.logsPath "debug" now ≠ fullPath f)
    (hnE : genFilePath st.logsPath "error" now ≠ fullPath f)
    (hgz : ∀ ty f', st.logFiles.get ty = some f' →
      fullPath f' ++ ".gz" ≠ fullPath f)
    (hsW : genFilePath st.logsPath "warn" now
      ≠ genFilePath st.logsPath "info" now)
    (hsD : genFilePath st.logsPath "debug" now
      ≠ genFilePath st.logsPath "info" now)
    (hsE : genFilePath st.logsPath "error" now
      ≠ genFilePath st.logsPath "info" now) :
    getFile (info st now M none ok).files (fullPath f)
        = some (content ++ (assembleTemplate st now .INFO M ++ "\n"))
      ∧ getFile (info st now M none ok).files
          (genFilePath st.logsPath "info" now) = some ""
      ∧ (info st now M none ok).currentDay = now.day := by
  simp only [info]
  split
  · rw [logToConsole_eq]
    exact logToFile_rotation_core _ now _ ok f content hI hd hc hnI hnW hnD
      hnE hgz hsW hsD hsE
  · exact logToFile_rotation_core _ now _ ok f content hI hd hc hnI hnW hnD
      hnE hgz hsW hsD hsE

/-- Witness for C4 at the sample logger, rotating from D1 to D2. -/
theorem c4_write_before_rotation_witness :
    getFile (info st1 D2 "hello" none okAll).files
        (fullPath ⟨"logs/info/2024/January", "01-03_07.log", 0⟩)
      = some ("" ++ (assembleTemplate st1 D2 .INFO "hello" ++ "\n"))
    ∧ getFile (info st1 D2 "hello" none okAll).files
        (genFilePath st1.logsPath "info" D2) = some ""
    ∧ (info st1 D2 "hello" none okAll).currentDay = D2.day := by
  refine c4_write_before_rotation st1 D2 "hello" okAll
    ⟨"logs/info/2024/January", "01-03_07.log", 0⟩ "" (by decide) (by decide)
    (by decide) (by decide) (by decide) (by decide) (by decide) ?_
    (by decide) (by decide) (by decide)
  intro ty f' h
  cases ty <;>
    [rw [show st1.logFiles.get .INFO
        = some ⟨"logs/info/2024/January", "01-03_07.log", 0⟩ from by decide] at h;
      rw [show st1.logFiles.get .WARN
        = some ⟨"logs/warn/2024/January", "01-03_07.log", 1⟩ from by decide] at h;
      rw [show st1.logFiles.get .DEBUG
        = some ⟨"logs/debug/2024/January", "01-03_07.log", 2⟩ from by decide] at h;
      rw [show st1.logFiles.get .ERROR
        = some ⟨"logs/error/2024/January", "01-03_07.log", 3⟩ from by decide] at h] <;>
    (injection h with h; subst h; decide)

/-- C8: with no rollover pending, (a) when the include-objects setting is
falsy the file line is exactly the rendered line plus newline even when
an object is supplied; (b) when it is true and an object is supplied the
file line is exactly the rendered line, the bracketed JSON, and the
newline; (c) when the console-echo setting is falsy the public info call
adds no console output and is exactly the file-write path. -/
theorem c8_object_and_console_settings (st : LoggerState) (now : JsDate)
    (ty : LogType) (tpl M : String) (obj : Option String) (j : String)
    (ok : LogType → Bool) (f : LogFile) (content : String)
    (hf : st.logFiles.get ty = some f)
    (hday : now.day = st.currentDay)
    (hc : getFile st.files (fullPath f) = some content) :
    (truthy st.settings.includeObjects = false →
      getFile (logToFile st ty tpl obj now ok).files (fullPath f)
        = some (content ++ (tpl ++ "\n")))
    ∧ (truthy st.settings.includeObjects = true → obj = some j →
      getFile (logToFile st ty tpl obj now ok).files (fullPath f)
        = some (content ++ (tpl ++ "[" ++ j ++ "]" ++ "\n")))
    ∧ (truthy st.settings.consoleLog = false →
      info st now M obj ok
        = logToFile st .INFO (assembleTemplate st now .INFO M) obj now ok
      ∧ (info st now M obj ok).consoleOut = st.consoleOut) := by
  refine ⟨?_, ?_, ?_⟩
  · intro hio
    unfold logToFile
    simp only [hf]
    rw [if_neg (by simp [hio])]
    rw [reloadFiles_no_rollover (streamWrite st f _) now ok hday]
    unfold streamWrite
    rw [getFile_setFile_self, hc]
    rfl
  · intro hio hobj
    subst hobj
    unfold logToFile
    simp only [hf]
    rw [if_pos (by simp [hio])]
    rw [reloadFiles_no_rollover (streamWrite st f _) now ok hday]
    unfold streamWrite
    rw [getFile_setFile_self, hc]
    rfl
  · intro hcl
    constructor
    · simp only [info]
      rw [if_neg (by simp [hcl])]
    · simp only [info]
      rw [if_neg (by simp [hcl])]
      unfold logToFile
      cases hg : st.logFiles.get .INFO with
      | none =>
        simp only [hg]
        rw [reloadFiles_no_rollover st now ok hday]
      | some g =>
        simp only [hg]
        split <;>
          · rw [reloadFiles_no_rollover (streamWrite st g _) now ok hday]
            rfl

/-- A logger whose provided settings turn console echo and attached
objects off. -/
def stC8 : LoggerState :=
  mkLogger "svc" "logs" (some ⟨some false, some false⟩) none D1

/-- Witness for C8 at a concrete logger with consoleLog and
includeObjects both false. -/
theorem c8_object_and_console_settings_witness :
    getFile (logToFile stC8 .INFO "line" (some "9") D1 okAll).files
        (fullPath ⟨"logs/info/2024/January", "01-03_07.log", 0⟩)
      = some ("" ++ ("line" ++ "\n"))
    ∧ info stC8 D1 "m" (some "9") okAll
      = logToFile stC8 .INFO (assembleTemplate stC8 D1 .INFO "m") (some "9")
          D1 okAll := by
  have h := c8_object_and_console_settings stC8 D1 .INFO "line" "m" (some "9")
    "9" okAll ⟨"logs/info/2024/January", "01-03_07.log", 0⟩ ""
    (by decide) (by decide) (by decide)
  exact ⟨h.1 (by decide), (h.2.2 (by decide)).1⟩

end LoggerTS
